import Mathlib

/-!
Verification of the near-sandbox process-lifecycle manager and state-patch
builder, shallowly embedded from the Rust sources (`src/sandbox/mod.rs`,
`src/sandbox/patch.rs`, `src/runner/mod.rs`, `src/runner/cleanup.rs`).

External effects (HTTP transport, the operating system's TCP stack, process
spawning) are modelled as explicit environments; every function of the
repository that the properties mention is translated into an executable
Lean definition operating over those environments.
-/

/-! ### A minimal model of `serde_json::Value` -/

/-- Model of `serde_json::Value`: only the shapes the crate manipulates. -/
inductive Json where
  | null : Json
  | bool (b : Bool) : Json
  | str (s : String) : Json
  | num (n : Nat) : Json
  | arr (elems : List Json) : Json
  | obj (fields : List (String × Json)) : Json

/-- `Value::get(key)`: field lookup, `none` when absent or not an object. -/
def Json.get : Json → String → Option Json
  | .obj fields, key => (fields.find? (fun f => f.fst == key)).map (fun f => f.snd)
  | _, _ => none

/-- `Value::as_str()`. -/
def Json.asStr : Json → Option String
  | .str s => some s
  | _ => none

/-- `Value::as_u64()`. -/
def Json.asNat : Json → Option Nat
  | .num n => some n
  | _ => none

/-- `Value::as_array()`. -/
def Json.asArr : Json → Option (List Json)
  | .arr elems => some elems
  | _ => none

/-- Insert-or-replace on the field list of a JSON object (`obj[key] = v`). -/
def setFieldList : List (String × Json) → String → Json → List (String × Json)
  | [], key, v => [(key, v)]
  | (k, w) :: rest, key, v =>
    if k == key then (key, v) :: rest else (k, w) :: setFieldList rest key v

/-- `obj[key] = v` on a JSON value; leaves non-objects unchanged
(mirrors the `if let Some(obj) = account.as_object_mut()` guards). -/
def Json.setField : Json → String → Json → Json
  | .obj fields, key, v => .obj (setFieldList fields key v)
  | j, _, _ => j

/-! ### State records and the patch builder (`src/sandbox/patch.rs`) -/

/-- `StateRecord` from `patch.rs`; account ids are modelled as strings. -/
inductive StateRecord where
  | account (account_id : String) (account : Json)
  | data (account_id : String) (data_key_base64 : String) (value_base64 : String)
  | contract (account_id : String) (code_base64 : String)
  | accessKey (account_id : String) (public_key_base64 : String) (access_key : Json)
  | postponedReceipt (v : Json)
  | receivedData (account_id : String) (data_id_hash : String) (data_base64 : Option String)
  | delayedReceipt (v : Json)

/-- `DEFAULT_GENESIS_ACCOUNT_PUBLIC_KEY` (`src/config.rs`). -/
def DEFAULT_GENESIS_ACCOUNT_PUBLIC_KEY : String :=
  "ed25519:7PGseFbWxvYVgZ89K1uTJKYoKetWs7BJtbyXDzfbAcqX"

/-- The patch builder. The borrowed `&Sandbox` is represented by the one
piece of it `patch.rs` reads: `sandbox.rpc_addr`. -/
structure PatchState where
  destination_account : String
  state : List StateRecord
  sandbox_rpc_addr : String
  initial_balance : Option Nat

/-- `PatchState::new`. -/
def PatchState.new (destination_account sandbox_rpc_addr : String) : PatchState :=
  ⟨destination_account, [], sandbox_rpc_addr, none⟩

/-- `PatchState::account`. -/
def PatchState.account (b : PatchState) (account : Json) : PatchState :=
  { b with state := b.state ++ [.account b.destination_account account] }

/-- `PatchState::storage`. -/
def PatchState.storage (b : PatchState) (state_key_base64 state_value_base64 : String) :
    PatchState :=
  { b with state := b.state ++ [.data b.destination_account state_key_base64 state_value_base64] }

/-- `PatchState::storage_entries`. -/
def PatchState.storage_entries (b : PatchState) (entries : List (String × String)) : PatchState :=
  { b with
    state := b.state ++ entries.map (fun e => StateRecord.data b.destination_account e.fst e.snd) }

/-- `PatchState::code`. -/
def PatchState.code (b : PatchState) (code_base64 : String) : PatchState :=
  { b with state := b.state ++ [.contract b.destination_account code_base64] }

/-- `PatchState::access_key`. -/
def PatchState.access_key (b : PatchState) (public_key_base64 : String) (access_key : Json) :
    PatchState :=
  { b with
    state := b.state ++ [.accessKey b.destination_account public_key_base64 access_key] }

/-- `PatchState::with_default_access_key`. -/
def PatchState.with_default_access_key (b : PatchState) : PatchState :=
  b.access_key DEFAULT_GENESIS_ACCOUNT_PUBLIC_KEY
    (.obj [("nonce", .num 0), ("permission", .str "FullAccess")])

/-- `PatchState::received_data`. -/
def PatchState.received_data (b : PatchState) (data_id_hash : String)
    (data_base64 : Option String) : PatchState :=
  { b with state := b.state ++ [.receivedData b.destination_account data_id_hash data_base64] }

/-- `PatchState::state_record`: raw record insertion. -/
def PatchState.state_record (b : PatchState) (r : StateRecord) : PatchState :=
  { b with state := b.state ++ [r] }

/-! ### The JSON-RPC transport (`Sandbox::send_request`) -/

/-- The parameter payloads of the RPC calls the crate issues. -/
inductive RpcParams where
  | noParams
  | patchRecords (records : List StateRecord)
  | viewAccount (account_id : String)
  | fastForwardDelta (delta : Nat)

/-- One outgoing JSON-RPC call (`jsonrpc: 2.0`, `id: "0"` are fixed). -/
structure RpcCall where
  url : String
  method : String
  params : RpcParams

/-- `SandboxRpcError` from `src/error_kind.rs`. The source stringifies the
server-reported `error` value; the model keeps the JSON value itself. -/
inductive SandboxRpcError where
  | requestError (e : Nat)
  | unexpectedResponse
  | sandboxRpcError (err : Json)

/-- The HTTP transport: an environment mapping a call to a transport-level
failure (an io-error code) or a response body. -/
def Transport : Type := RpcCall → Except Nat Json

/-- `Sandbox::send_request`: run the transport, then fail when the body
carries an `error` field. -/
def sendRequest (transport : Transport) (call : RpcCall) : Except SandboxRpcError Json :=
  match transport call with
  | .error e => .error (.requestError e)
  | .ok body =>
    match body.get "error" with
    | some err => .error (.sandboxRpcError err)
    | none => .ok body

/-! ### `send` and `process_initial_balance` -/

/-- Serde rendering of a `NearToken` (`serde_json::json!(balance)`): its
decimal yoctoNEAR string. -/
def tokenToJson (balance : Nat) : Json := .str (toString balance)

/-- `Display` rendering of a `NearToken` (`balance.to_string()`), modelled
as its decimal yoctoNEAR value. -/
def tokenDisplay (balance : Nat) : String := toString balance

/-- Overwrite the `amount` field of a staged account value, mirroring
`if let Some(obj) = account.as_object_mut() { obj["amount"] = json!(balance) }`. -/
def setAmountInPlace (balance : Nat) : Json → Json
  | .obj fields => Json.setField (.obj fields) "amount" (tokenToJson balance)
  | j => j

/-- Overwrite the `amount` field of a freshly fetched account value
(`obj["amount"] = json!(balance.to_string())`). -/
def setAmountFetched (balance : Nat) : Json → Json
  | .obj fields => Json.setField (.obj fields) "amount" (.str (tokenDisplay balance))
  | j => j

/-- `records.iter_mut().find_map(...)` followed by the in-place mutation:
apply `f` to the embedded value of the first `Account` record, `none` when
no `Account` record is staged. -/
def patchFirstAccount : List StateRecord → (Json → Json) → Option (List StateRecord)
  | [], _ => none
  | .account aid acc :: rest, f => some (.account aid (f acc) :: rest)
  | r :: rest, f => (patchFirstAccount rest f).map (fun rs => r :: rs)

/-- The `view_account` query `process_initial_balance` sends to the
sandbox's own endpoint. -/
def viewAccountCall (b : PatchState) : RpcCall :=
  ⟨b.sandbox_rpc_addr, "query", .viewAccount b.destination_account⟩

/-- `PatchState::process_initial_balance`. Returns the record batch to
submit together with the trace of RPC calls issued. -/
def PatchState.process_initial_balance (b : PatchState) (balance : Nat)
    (transport : Transport) : Except SandboxRpcError (List StateRecord) × List RpcCall :=
  match patchFirstAccount b.state (setAmountInPlace balance) with
  | some records => (.ok records, [])
  | none =>
    match sendRequest transport (viewAccountCall b) with
    | .error e => (.error e, [viewAccountCall b])
    | .ok resp =>
      match resp.get "result" with
      | none => (.error .unexpectedResponse, [viewAccountCall b])
      | some res =>
        (.ok (StateRecord.account b.destination_account (setAmountFetched balance res)
            :: b.state),
         [viewAccountCall b])

/-- The `sandbox_patch_state` call built by `send`. -/
def patchStateCall (b : PatchState) (records : List StateRecord) : RpcCall :=
  ⟨b.sandbox_rpc_addr, "sandbox_patch_state", .patchRecords records⟩

/-- `PatchState::send`: resolve `initial_balance`, then issue the
`sandbox_patch_state` call twice in sequence with the same payload. -/
def PatchState.send (b : PatchState) (transport : Transport) :
    Except SandboxRpcError Unit × List RpcCall :=
  match (match b.initial_balance with
         | some balance => b.process_initial_balance balance transport
         | none => (.ok b.state, [])) with
  | (.error e, calls) => (.error e, calls)
  | (.ok records, calls) =>
    match sendRequest transport (patchStateCall b records) with
    | .error e => (.error e, calls ++ [patchStateCall b records])
    | .ok _ =>
      match sendRequest transport (patchStateCall b records) with
      | .error e => (.error e, calls ++ [patchStateCall b records, patchStateCall b records])
      | .ok _ => (.ok (), calls ++ [patchStateCall b records, patchStateCall b records])

/-! ### C4 -/

/-- C4: for every `PatchState` with no `initial_balance` set, `send()`
submits exactly the accumulated records in accumulation order, issuing the
`sandbox_patch_state` call twice with identical payload; the second call is
issued only after the first completes successfully, and a failing first
call is propagated without a second call. -/
theorem c4_send_duplicates_exact_records (b : PatchState) (transport : Transport)
    (hbal : b.initial_balance = none) :
    ((∃ j, sendRequest transport (patchStateCall b b.state) = .ok j) →
      (b.send transport).snd = [patchStateCall b b.state, patchStateCall b b.state]) ∧
    (∀ e, sendRequest transport (patchStateCall b b.state) = .error e →
      b.send transport = (.error e, [patchStateCall b b.state])) := by
  constructor
  · rintro ⟨j, hj⟩
    unfold PatchState.send
    rw [hbal]
    simp only [hj]
    cases hj2 : sendRequest transport (patchStateCall b b.state) <;> simp [hj2] at hj ⊢
  · intro e he
    unfold PatchState.send
    rw [hbal]
    simp [he]

/-- A concrete two-record batch together with an always-succeeding
transport, exercising `c4_send_duplicates_exact_records`. -/
theorem c4_send_duplicates_exact_records_witness :
    (PatchState.mk "alice.near" [.data "alice.near" "a2V5" "dmFs",
        .contract "alice.near" "AA=="] "http://127.0.0.1:3030" none).initial_balance = none ∧
    ((PatchState.mk "alice.near" [.data "alice.near" "a2V5" "dmFs",
        .contract "alice.near" "AA=="] "http://127.0.0.1:3030" none).send
      (fun _ => .ok (.obj []))).snd =
      [patchStateCall (PatchState.mk "alice.near" [.data "alice.near" "a2V5" "dmFs",
          .contract "alice.near" "AA=="] "http://127.0.0.1:3030" none)
        [.data "alice.near" "a2V5" "dmFs", .contract "alice.near" "AA=="],
       patchStateCall (PatchState.mk "alice.near" [.data "alice.near" "a2V5" "dmFs",
          .contract "alice.near" "AA=="] "http://127.0.0.1:3030" none)
        [.data "alice.near" "a2V5" "dmFs", .contract "alice.near" "AA=="]] :=
  ⟨rfl,
   (c4_send_duplicates_exact_records _ (fun _ => .ok (.obj [])) rfl).1 ⟨.obj [], rfl⟩⟩

/-! ### C5 -/

/-- Discriminator for `StateRecord::Account` (the pattern of the
`find_map` in `process_initial_balance`). -/
def isAccountRecord : StateRecord → Bool
  | .account _ _ => true
  | _ => false

/-- When no `Account` record is staged, the `find_map` finds nothing. -/
theorem patchFirstAccount_none (records : List StateRecord) (f : Json → Json)
    (h : ∀ r ∈ records, isAccountRecord r = false) :
    patchFirstAccount records f = none := by
  induction records with
  | nil => rfl
  | cons r rest ih =>
    cases r with
    | account aid acc => simpa [isAccountRecord] using h _ (List.mem_cons_self _ _)
    | data aid k v =>
      simp only [patchFirstAccount, ih (fun r hr => h r (List.mem_cons_of_mem _ hr)),
        Option.map_none']
    | contract aid c =>
      simp only [patchFirstAccount, ih (fun r hr => h r (List.mem_cons_of_mem _ hr)),
        Option.map_none']
    | accessKey aid pk ak =>
      simp only [patchFirstAccount, ih (fun r hr => h r (List.mem_cons_of_mem _ hr)),
        Option.map_none']
    | postponedReceipt v =>
      simp only [patchFirstAccount, ih (fun r hr => h r (List.mem_cons_of_mem _ hr)),
        Option.map_none']
    | receivedData aid d dd =>
      simp only [patchFirstAccount, ih (fun r hr => h r (List.mem_cons_of_mem _ hr)),
        Option.map_none']
    | delayedReceipt v =>
      simp only [patchFirstAccount, ih (fun r hr => h r (List.mem_cons_of_mem _ hr)),
        Option.map_none']

/-- The `find_map` mutation hits exactly the first staged `Account` record
and leaves every other record untouched. -/
theorem patchFirstAccount_split (pre post : List StateRecord) (aid : String) (acc : Json)
    (f : Json → Json) (hpre : ∀ r ∈ pre, isAccountRecord r = false) :
    patchFirstAccount (pre ++ .account aid acc :: post) f =
      some (pre ++ .account aid (f acc) :: post) := by
  induction pre with
  | nil => rfl
  | cons r rest ih =>
    have hr := hpre r (List.mem_cons_self _ _)
    have hrest : ∀ x ∈ rest, isAccountRecord x = false :=
      fun x hx => hpre x (List.mem_cons_of_mem _ hx)
    cases r <;> simp_all [patchFirstAccount, isAccountRecord]

/-- C5: for every `PatchState` with `initial_balance` set, at submission
time: when an `Account` record is already staged, the first such record has
its embedded `amount` mutated in place — no RPC call is issued and every
other record is untouched; when none is staged, a `view_account` query is
sent to the sandbox's own RPC endpoint for the destination account, the
fetched account's `amount` is overwritten with the requested amount, and
the resulting `Account` record becomes the first record of the batch. -/
theorem c5_initial_balance_processing (b : PatchState) (balance : Nat)
    (transport : Transport) (hbal : b.initial_balance = some balance) :
    (∀ pre aid fields post,
      b.state = pre ++ .account aid (.obj fields) :: post →
      (∀ r ∈ pre, isAccountRecord r = false) →
      b.process_initial_balance balance transport =
        (.ok (pre ++
            .account aid (Json.setField (.obj fields) "amount" (tokenToJson balance)) :: post),
         [])) ∧
    ((∀ r ∈ b.state, isAccountRecord r = false) →
      ∀ resp res, sendRequest transport (viewAccountCall b) = .ok resp →
        resp.get "result" = some res →
        b.process_initial_balance balance transport =
          (.ok (.account b.destination_account (setAmountFetched balance res) :: b.state),
           [viewAccountCall b]) ∧
        (viewAccountCall b).url = b.sandbox_rpc_addr ∧
        (viewAccountCall b).params = .viewAccount b.destination_account) := by
  clear hbal
  constructor
  · intro pre aid fields post hsplit hpre
    unfold PatchState.process_initial_balance
    rw [hsplit, patchFirstAccount_split pre post aid (.obj fields) _ hpre]
    rfl
  · intro hnone resp res hresp hres
    unfold PatchState.process_initial_balance
    simp only [patchFirstAccount_none b.state _ hnone, hresp, hres]
    exact ⟨trivial, rfl, rfl⟩

/-- A builder with no staged account record, against a transport whose
`view_account` answer carries an account object: the fetched record is
placed first with its balance overwritten. -/
theorem c5_initial_balance_processing_witness :
    (PatchState.mk "bob.near" [.data "bob.near" "aw==" "dg=="] "http://127.0.0.1:3030"
        (some 7)).initial_balance = some 7 ∧
    (PatchState.mk "bob.near" [.data "bob.near" "aw==" "dg=="] "http://127.0.0.1:3030"
        (some 7)).process_initial_balance 7
      (fun _ => .ok (.obj [("result", .obj [("amount", .str "5"), ("locked", .str "0")])])) =
      (.ok [.account "bob.near" (.obj [("amount", .str "7"), ("locked", .str "0")]),
            .data "bob.near" "aw==" "dg=="],
       [viewAccountCall (PatchState.mk "bob.near" [.data "bob.near" "aw==" "dg=="]
          "http://127.0.0.1:3030" (some 7))]) := by
  refine ⟨rfl, ?_⟩
  have h := (c5_initial_balance_processing
    (PatchState.mk "bob.near" [.data "bob.near" "aw==" "dg=="] "http://127.0.0.1:3030" (some 7))
    7 (fun _ => .ok (.obj [("result", .obj [("amount", .str "5"), ("locked", .str "0")])]))
    rfl).2 (by intro r hr; simp at hr; subst hr; rfl)
    (.obj [("result", .obj [("amount", .str "5"), ("locked", .str "0")])])
    (.obj [("amount", .str "5"), ("locked", .str "0")]) rfl rfl
  exact h.1

/-! ### Fetch helpers (`fetch_from_account` and the four `fetch_*` queries) -/

/-- The four read-only query categories of `FetchData`. -/
inductive FetchCat where
  | account
  | code
  | storage
  | accessKeys
deriving DecidableEq

/-- `FetchData`: four independent flags. -/
structure FetchData where
  fetch_account : Bool
  fetch_storage : Bool
  fetch_code : Bool
  fetch_access_keys : Bool

/-- `FetchData::new` / `FetchData::NONE`. -/
def FetchData.new : FetchData := ⟨false, false, false, false⟩

/-- `FetchData::ALL`. -/
def FetchData.ALL : FetchData := ⟨true, true, true, true⟩

/-- The categories `fetch_from_account` queries, in its source order:
account, code, storage, access keys. -/
def enabledFetches (fd : FetchData) : List FetchCat :=
  (if fd.fetch_account then [FetchCat.account] else []) ++
  (if fd.fetch_code then [FetchCat.code] else []) ++
  (if fd.fetch_storage then [FetchCat.storage] else []) ++
  (if fd.fetch_access_keys then [FetchCat.accessKeys] else [])

/-- One `query` RPC of a fetch: the category plus the account it asks
about (`view_account` / `view_code` / `view_state` / `view_access_key_list`
with `account_id`). -/
structure FetchQuery where
  cat : FetchCat
  account_id : String
deriving DecidableEq

/-- The responses of the remote endpoint, per category: the result of
`send_request` for the category's query (transport and `error`-field
failures already accounted for, as in `sendRequest`). -/
def FetchOracle : Type := FetchCat → Except SandboxRpcError Json

/-- Body of `fetch_account`: unwrap `result`, append via `self.account`. -/
def applyFetchAccount (b : PatchState) (resp : Json) : Except SandboxRpcError PatchState :=
  match resp.get "result" with
  | none => .error .unexpectedResponse
  | some v => .ok (b.account v)

/-- Body of `fetch_code`: unwrap `result.code_base64`
(`as_str().unwrap_or_default()`), append via `self.code`. -/
def applyFetchCode (b : PatchState) (resp : Json) : Except SandboxRpcError PatchState :=
  match resp.get "result" with
  | none => .error .unexpectedResponse
  | some res =>
    match res.get "code_base64" with
    | none => .error .unexpectedResponse
    | some cb => .ok (b.code ((cb.asStr).getD ""))

/-- The `flat_map` of `fetch_storage`: keep the (key, value) string pairs,
silently skipping malformed entries. -/
def parseStoragePairs (vals : List Json) : List (String × String) :=
  vals.filterMap (fun st =>
    ((st.get "key").bind Json.asStr).bind (fun k =>
      ((st.get "value").bind Json.asStr).map (fun v => (k, v))))

/-- Body of `fetch_storage`: unwrap `result.values`
(`as_array().unwrap_or(&EMPTY)`), append via `self.storage_entries`. -/
def applyFetchStorage (b : PatchState) (resp : Json) : Except SandboxRpcError PatchState :=
  match resp.get "result" with
  | none => .error .unexpectedResponse
  | some res =>
    match res.get "values" with
    | none => .error .unexpectedResponse
    | some vs => .ok (b.storage_entries (parseStoragePairs ((vs.asArr).getD [])))

/-- The `for` loop of `fetch_access_keys`: every element must carry
`public_key` and `access_key`; each is appended via `self.access_key`. -/
def applyAccessKeyList (b : PatchState) : List Json → Except SandboxRpcError PatchState
  | [] => .ok b
  | ak :: rest =>
    match ak.get "public_key" with
    | none => .error .unexpectedResponse
    | some pk =>
      match ak.get "access_key" with
      | none => .error .unexpectedResponse
      | some v => applyAccessKeyList (b.access_key ((pk.asStr).getD "") v) rest

/-- Body of `fetch_access_keys`: unwrap `result.keys`
(`as_array().unwrap_or(&EMPTY)`), then the key loop. -/
def applyFetchAccessKeys (b : PatchState) (resp : Json) : Except SandboxRpcError PatchState :=
  match resp.get "result" with
  | none => .error .unexpectedResponse
  | some res =>
    match res.get "keys" with
    | none => .error .unexpectedResponse
    | some ks => applyAccessKeyList b ((ks.asArr).getD [])

/-- Response handling of the four `fetch_*` helpers, by category. -/
def applyFetch : FetchCat → PatchState → Json → Except SandboxRpcError PatchState
  | .account, b, resp => applyFetchAccount b resp
  | .code, b, resp => applyFetchCode b resp
  | .storage, b, resp => applyFetchStorage b resp
  | .accessKeys, b, resp => applyFetchAccessKeys b resp

/-- The sequential `if`/`?` chain of `fetch_from_account`, folded over the
enabled categories in source order. Returns the builder (or the first
error) together with the trace of queries issued. -/
def seqFetch (oracle : FetchOracle) (account_id : String) :
    List FetchCat → PatchState → Except SandboxRpcError PatchState × List FetchQuery
  | [], b => (.ok b, [])
  | c :: cs, b =>
    match oracle c with
    | .error e => (.error e, [⟨c, account_id⟩])
    | .ok resp =>
      match applyFetch c b resp with
      | .error e => (.error e, [⟨c, account_id⟩])
      | .ok b2 =>
        match seqFetch oracle account_id cs b2 with
        | (r, tr) => (r, ⟨c, account_id⟩ :: tr)

/-- `PatchState::fetch_from_account`. -/
def PatchState.fetch_from_account (b : PatchState) (account_id : String) (fd : FetchData)
    (oracle : FetchOracle) : Except SandboxRpcError PatchState × List FetchQuery :=
  seqFetch oracle account_id (enabledFetches fd) b

/-- `PatchState::fetch_from`: fetch for the builder's own target. -/
def PatchState.fetch_from (b : PatchState) (fd : FetchData) (oracle : FetchOracle) :
    Except SandboxRpcError PatchState × List FetchQuery :=
  b.fetch_from_account b.destination_account fd oracle

/-- The JSON shape of one well-formed `view_state` entry. -/
def pairJson (p : String × String) : Json :=
  .obj [("key", .str p.fst), ("value", .str p.snd)]

/-- The JSON shape of one well-formed `view_access_key_list` entry. -/
def keyJson (k : String × Json) : Json :=
  .obj [("public_key", .str k.fst), ("access_key", k.snd)]

/-- Well-formed storage entries parse back to exactly their pairs. -/
theorem parseStoragePairs_wellFormed (pairs : List (String × String)) :
    parseStoragePairs (pairs.map pairJson) = pairs := by
  induction pairs with
  | nil => rfl
  | cons p rest ih =>
    cases p
    simp only [parseStoragePairs, List.map_cons, List.filterMap_cons] at ih ⊢
    simp_all [pairJson, Json.get, Json.asStr]

/-- Well-formed access-key entries append one `AccessKey` record each, in
order, all for the builder's destination account. -/
theorem applyAccessKeyList_wellFormed (keys : List (String × Json)) (b : PatchState) :
    applyAccessKeyList b (keys.map keyJson) =
      .ok { b with
        state := b.state ++
          keys.map (fun k => StateRecord.accessKey b.destination_account k.fst k.snd) } := by
  induction keys generalizing b with
  | nil =>
    simp only [List.map_nil, applyAccessKeyList, List.append_nil]
  | cons k rest ih =>
    cases k with
    | mk pk akv =>
      have hstep : applyAccessKeyList b (List.map keyJson ((pk, akv) :: rest)) =
          applyAccessKeyList (b.access_key pk akv) (List.map keyJson rest) := rfl
      rw [hstep, ih]
      simp [PatchState.access_key]

/-! ### C6 -/

/-- C6: a fetch with all four flags set against an endpoint whose responses
are well-formed appends exactly one `Account` record, one `Contract` record
(also when the code string is empty), one `Data` record per remote storage
pair — matching the pairs exactly and in order — and one `AccessKey` record
per remote key, in the fixed order account, code, storage, access keys. -/
theorem c6_fetch_all_appends_exact (b : PatchState) (account_id : String)
    (oracle : FetchOracle) (aResp cResp sResp kResp aVal cRes sRes kRes : Json)
    (codeStr : String) (pairs : List (String × String)) (keys : List (String × Json))
    (ha : oracle .account = .ok aResp) (haRes : aResp.get "result" = some aVal)
    (hc : oracle .code = .ok cResp) (hcRes : cResp.get "result" = some cRes)
    (hcb : cRes.get "code_base64" = some (.str codeStr))
    (hs : oracle .storage = .ok sResp) (hsRes : sResp.get "result" = some sRes)
    (hsv : sRes.get "values" = some (.arr (pairs.map pairJson)))
    (hk : oracle .accessKeys = .ok kResp) (hkRes : kResp.get "result" = some kRes)
    (hkk : kRes.get "keys" = some (.arr (keys.map keyJson))) :
    b.fetch_from_account account_id FetchData.ALL oracle =
      (.ok { b with state := b.state ++
          StateRecord.account b.destination_account aVal ::
          StateRecord.contract b.destination_account codeStr ::
          (pairs.map (fun p => StateRecord.data b.destination_account p.fst p.snd) ++
           keys.map (fun k => StateRecord.accessKey b.destination_account k.fst k.snd)) },
       [⟨.account, account_id⟩, ⟨.code, account_id⟩, ⟨.storage, account_id⟩,
        ⟨.accessKeys, account_id⟩]) := by
  have hcats : enabledFetches FetchData.ALL =
      [FetchCat.account, FetchCat.code, FetchCat.storage, FetchCat.accessKeys] := rfl
  unfold PatchState.fetch_from_account
  rw [hcats]
  simp only [seqFetch, ha, hc, hs, hk, applyFetch, applyFetchAccount, applyFetchCode,
    applyFetchStorage, applyFetchAccessKeys, haRes, hcRes, hcb, hsRes, hsv, hkRes, hkk,
    Json.asStr, Json.asArr, Option.getD_some, parseStoragePairs_wellFormed,
    applyAccessKeyList_wellFormed]
  simp [PatchState.account, PatchState.code, PatchState.storage_entries]

/-- A concrete all-flags fetch for a foreign source account with empty
code, one storage pair and one access key, exercising
`c6_fetch_all_appends_exact`. -/
theorem c6_fetch_all_appends_exact_witness :
    (fun oracle : FetchOracle =>
      (PatchState.new "dest.near" "http://127.0.0.1:3030").fetch_from_account
          "src.near" FetchData.ALL oracle =
        (.ok { PatchState.new "dest.near" "http://127.0.0.1:3030" with state :=
            [.account "dest.near" (.obj [("amount", .str "1")]),
             .contract "dest.near" "",
             .data "dest.near" "a2V5" "dmFs",
             .accessKey "dest.near" "ed25519:pk" (.obj [("nonce", .num 0)])] },
         [⟨.account, "src.near"⟩, ⟨.code, "src.near"⟩, ⟨.storage, "src.near"⟩,
          ⟨.accessKeys, "src.near"⟩]))
      (fun cat =>
        match cat with
        | .account => .ok (.obj [("result", .obj [("amount", .str "1")])])
        | .code => .ok (.obj [("result", .obj [("code_base64", .str "")])])
        | .storage => .ok (.obj [("result", .obj
            [("values", .arr [pairJson ("a2V5", "dmFs")])])])
        | .accessKeys => .ok (.obj [("result", .obj
            [("keys", .arr [keyJson ("ed25519:pk", .obj [("nonce", .num 0)])])])])) := by
  have h := c6_fetch_all_appends_exact (PatchState.new "dest.near" "http://127.0.0.1:3030")
    "src.near"
    (fun cat =>
      match cat with
      | .account => .ok (.obj [("result", .obj [("amount", .str "1")])])
      | .code => .ok (.obj [("result", .obj [("code_base64", .str "")])])
      | .storage => .ok (.obj [("result", .obj
          [("values", .arr [pairJson ("a2V5", "dmFs")])])])
      | .accessKeys => .ok (.obj [("result", .obj
          [("keys", .arr [keyJson ("ed25519:pk", .obj [("nonce", .num 0)])])])]))
    (.obj [("result", .obj [("amount", .str "1")])])
    (.obj [("result", .obj [("code_base64", .str "")])])
    (.obj [("result", .obj [("values", .arr [pairJson ("a2V5", "dmFs")])])])
    (.obj [("result", .obj [("keys", .arr [keyJson ("ed25519:pk", .obj [("nonce", .num 0)])])])])
    (.obj [("amount", .str "1")])
    (.obj [("code_base64", .str "")])
    (.obj [("values", .arr [pairJson ("a2V5", "dmFs")])])
    (.obj [("keys", .arr [keyJson ("ed25519:pk", .obj [("nonce", .num 0)])])])
    "" [("a2V5", "dmFs")] [("ed25519:pk", .obj [("nonce", .num 0)])]
    rfl rfl rfl rfl rfl rfl rfl rfl rfl rfl rfl
  simpa using h

/-! ### C9 -/

/-- A successful fetch pass queries exactly its category list, in order. -/
theorem seqFetch_ok_trace (oracle : FetchOracle) (account_id : String)
    (cs : List FetchCat) (b b2 : PatchState) (tr : List FetchQuery)
    (h : seqFetch oracle account_id cs b = (.ok b2, tr)) :
    tr = cs.map (fun c => ⟨c, account_id⟩) := by
  induction cs generalizing b tr with
  | nil => simp only [seqFetch, Prod.mk.injEq] at h; simp [h.2.symm]
  | cons c rest ih =>
    cases hc : oracle c with
    | error e => simp only [seqFetch, hc, Prod.mk.injEq] at h; exact absurd h.1 (by simp)
    | ok resp =>
      cases hap : applyFetch c b resp with
      | error e =>
        simp only [seqFetch, hc, hap, Prod.mk.injEq] at h
        exact absurd h.1 (by simp)
      | ok b3 =>
        simp only [seqFetch, hc, hap, Prod.mk.injEq] at h
        obtain ⟨h1, h2⟩ := h
        have hpair : seqFetch oracle account_id rest b3 =
            (.ok b2, (seqFetch oracle account_id rest b3).snd) := by
          rw [← h1]
        rw [← h2, List.map_cons]
        simp [ih b3 _ hpair]

/-- Sequential composition of a fetch pass: a successful pass over `pre`
continues into the remaining categories. -/
theorem seqFetch_append_ok (oracle : FetchOracle) (account_id : String)
    (pre rest : List FetchCat) (b b1 : PatchState) (tr1 : List FetchQuery)
    (h : seqFetch oracle account_id pre b = (.ok b1, tr1)) :
    seqFetch oracle account_id (pre ++ rest) b =
      ((seqFetch oracle account_id rest b1).fst,
       tr1 ++ (seqFetch oracle account_id rest b1).snd) := by
  induction pre generalizing b tr1 with
  | nil =>
    simp only [seqFetch, Prod.mk.injEq] at h
    obtain ⟨hb, htr⟩ := h
    cases hb
    subst htr
    simp
  | cons c cs ih =>
    cases hc : oracle c with
    | error e =>
      simp only [seqFetch, hc, Prod.mk.injEq] at h
      exact absurd h.1 (by simp)
    | ok resp =>
      cases hap : applyFetch c b resp with
      | error e =>
        simp only [seqFetch, hc, hap, Prod.mk.injEq] at h
        exact absurd h.1 (by simp)
      | ok b3 =>
        simp only [seqFetch, hc, hap, Prod.mk.injEq] at h
        obtain ⟨h1, h2⟩ := h
        have hpair : seqFetch oracle account_id cs b3 =
            (.ok b1, (seqFetch oracle account_id cs b3).snd) := by
          rw [← h1]
        rw [List.cons_append]
        simp only [seqFetch, hc, hap, ih b3 _ hpair]
        rw [← h2]
        simp

/-- The category list of a fetch never repeats a category. -/
theorem enabledFetches_nodup (fd : FetchData) : (enabledFetches fd).Nodup := by
  obtain ⟨a, s, c, k⟩ := fd
  cases a <;> cases s <;> cases c <;> cases k <;> decide

/-- C9: when every category before `c0` succeeds and `c0`'s query returns
an error, the whole fetch aborts with exactly that error; the queries
issued are the earlier ones plus the failing one, and no later category is
queried. -/
theorem c9_fetch_aborts_on_first_error (b : PatchState) (account_id : String)
    (fd : FetchData) (oracle : FetchOracle) (pre post : List FetchCat) (c0 : FetchCat)
    (b1 : PatchState) (tr1 : List FetchQuery) (e : SandboxRpcError)
    (hsplit : enabledFetches fd = pre ++ c0 :: post)
    (hpre : seqFetch oracle account_id pre b = (.ok b1, tr1))
    (herr : oracle c0 = .error e) :
    b.fetch_from_account account_id fd oracle =
      (.error e, pre.map (fun c => ⟨c, account_id⟩) ++ [⟨c0, account_id⟩]) ∧
    ∀ c ∈ post, (⟨c, account_id⟩ : FetchQuery) ∉
      pre.map (fun x => (⟨x, account_id⟩ : FetchQuery)) ++ [⟨c0, account_id⟩] := by
  have htr1 : tr1 = pre.map (fun c => ⟨c, account_id⟩) :=
    seqFetch_ok_trace oracle account_id pre b b1 tr1 hpre
  constructor
  · unfold PatchState.fetch_from_account
    rw [hsplit, seqFetch_append_ok oracle account_id pre (c0 :: post) b b1 tr1 hpre]
    simp only [seqFetch, herr, htr1]
  · intro c hc
    have hnd := enabledFetches_nodup fd
    rw [hsplit] at hnd
    rw [List.nodup_append] at hnd
    obtain ⟨hndPre, hndCons, hdisj⟩ := hnd
    intro hmem
    rw [List.mem_append] at hmem
    cases hmem with
    | inl hmem =>
      rw [List.mem_map] at hmem
      obtain ⟨x, hx, hxeq⟩ := hmem
      have hcx : c = x := by cases hxeq; rfl
      subst hcx
      exact hdisj hx (List.mem_cons_of_mem _ hc)
    | inr hmem =>
      rw [List.mem_singleton] at hmem
      have hcc : c = c0 := by cases hmem; rfl
      subst hcc
      exact (List.nodup_cons.mp hndCons).1 hc

/-- A fetch whose `view_account` query succeeds and whose `view_code` query
fails with a transport error: the fetch stops at the code query, exercising
`c9_fetch_aborts_on_first_error`. -/
theorem c9_fetch_aborts_on_first_error_witness :
    enabledFetches FetchData.ALL =
      [FetchCat.account] ++ FetchCat.code :: [FetchCat.storage, FetchCat.accessKeys] ∧
    (PatchState.new "dest.near" "http://127.0.0.1:3030").fetch_from_account "dest.near"
        FetchData.ALL
        (fun cat =>
          match cat with
          | .account => .ok (.obj [("result", .null)])
          | _ => .error (.requestError 7)) =
      (.error (.requestError 7),
       [⟨.account, "dest.near"⟩, ⟨.code, "dest.near"⟩]) := by
  refine ⟨rfl, ?_⟩
  have h := (c9_fetch_aborts_on_first_error
    (PatchState.new "dest.near" "http://127.0.0.1:3030") "dest.near" FetchData.ALL
    (fun cat =>
      match cat with
      | .account => .ok (.obj [("result", .null)])
      | _ => .error (.requestError 7))
    [FetchCat.account] [FetchCat.storage, FetchCat.accessKeys] FetchCat.code
    ((PatchState.new "dest.near" "http://127.0.0.1:3030").account .null)
    [⟨FetchCat.account, "dest.near"⟩] (.requestError 7)
    rfl rfl rfl).1
  simpa using h

/-! ### C10 -/

/-- The account a record names (`account_id` field); receipts carry no
top-level account id in the model. -/
def StateRecord.named_account : StateRecord → Option String
  | .account aid _ => some aid
  | .data aid _ _ => some aid
  | .contract aid _ => some aid
  | .accessKey aid _ _ => some aid
  | .receivedData aid _ _ => some aid
  | .postponedReceipt _ => none
  | .delayedReceipt _ => none

/-- The record-appending helper methods of `PatchState`, `state_record`
excluded. A fetch op carries the source account it queries and the remote
endpoint's responses. -/
inductive HelperOp where
  | accountOp (v : Json)
  | storageOp (k v : String)
  | storageEntriesOp (entries : List (String × String))
  | codeOp (c : String)
  | accessKeyOp (pk : String) (ak : Json)
  | withDefaultAccessKeyOp
  | receivedDataOp (data_id : String) (data : Option String)
  | fetchFromAccountOp (src : String) (fd : FetchData) (oracle : FetchOracle)

/-- Run one helper method. -/
def applyHelperOp (b : PatchState) : HelperOp → Except SandboxRpcError PatchState
  | .accountOp v => .ok (b.account v)
  | .storageOp k v => .ok (b.storage k v)
  | .storageEntriesOp entries => .ok (b.storage_entries entries)
  | .codeOp c => .ok (b.code c)
  | .accessKeyOp pk ak => .ok (b.access_key pk ak)
  | .withDefaultAccessKeyOp => .ok b.with_default_access_key
  | .receivedDataOp data_id d => .ok (b.received_data data_id d)
  | .fetchFromAccountOp src fd oracle => (b.fetch_from_account src fd oracle).fst

/-- Run a chain of helper methods, stopping at the first error. -/
def applyHelperOps (b : PatchState) : List HelperOp → Except SandboxRpcError PatchState
  | [] => .ok b
  | op :: ops =>
    match applyHelperOp b op with
    | .error e => .error e
    | .ok b2 => applyHelperOps b2 ops

/-- Invariant: the builder targets `dest` and every staged record names
`dest`. -/
def destOnly (dest : String) (b : PatchState) : Prop :=
  b.destination_account = dest ∧ ∀ r ∈ b.state, r.named_account = some dest

/-- Appending one record that names the destination preserves the
invariant. -/
theorem destOnly_append_one (dest : String) (b : PatchState) (r : StateRecord)
    (hb : destOnly dest b) (hr : r.named_account = some dest) :
    destOnly dest { b with state := b.state ++ [r] } := by
  refine ⟨hb.1, ?_⟩
  intro x hx
  rw [List.mem_append, List.mem_singleton] at hx
  cases hx with
  | inl hx => exact hb.2 x hx
  | inr hx => rw [hx]; exact hr

/-- `access_key` preserves the invariant. -/
theorem destOnly_access_key (dest : String) (b : PatchState) (pk : String) (ak : Json)
    (hb : destOnly dest b) : destOnly dest (b.access_key pk ak) :=
  destOnly_append_one dest b _ hb (by simp [StateRecord.named_account, hb.1])

/-- `storage_entries` preserves the invariant. -/
theorem destOnly_storage_entries (dest : String) (b : PatchState)
    (entries : List (String × String)) (hb : destOnly dest b) :
    destOnly dest (b.storage_entries entries) := by
  refine ⟨hb.1, ?_⟩
  intro x hx
  rw [PatchState.storage_entries, List.mem_append] at hx
  cases hx with
  | inl hx => exact hb.2 x hx
  | inr hx =>
    rw [List.mem_map] at hx
    obtain ⟨e, _, he⟩ := hx
    rw [← he]
    simp [StateRecord.named_account, hb.1]

/-- The access-key loop preserves the invariant. -/
theorem destOnly_applyAccessKeyList (dest : String) (keys : List Json) (b b2 : PatchState)
    (h : applyAccessKeyList b keys = .ok b2) (hb : destOnly dest b) : destOnly dest b2 := by
  induction keys generalizing b with
  | nil => simp only [applyAccessKeyList, Except.ok.injEq] at h; rw [← h]; exact hb
  | cons ak rest ih =>
    cases hpk : ak.get "public_key" with
    | none => simp [applyAccessKeyList, hpk] at h
    | some pk =>
      cases hak : ak.get "access_key" with
      | none => simp [applyAccessKeyList, hpk, hak] at h
      | some v =>
        simp only [applyAccessKeyList, hpk, hak] at h
        exact ih _ h (destOnly_access_key dest b _ v hb)

/-- Each of the four fetch bodies preserves the invariant. -/
theorem destOnly_applyFetch (dest : String) (c : FetchCat) (b b2 : PatchState) (resp : Json)
    (h : applyFetch c b resp = .ok b2) (hb : destOnly dest b) : destOnly dest b2 := by
  cases c with
  | account =>
    cases hres : resp.get "result" with
    | none => simp [applyFetch, applyFetchAccount, hres] at h
    | some v =>
      simp only [applyFetch, applyFetchAccount, hres, Except.ok.injEq] at h
      rw [← h]
      exact destOnly_append_one dest b _ hb (by simp [StateRecord.named_account, hb.1])
  | code =>
    cases hres : resp.get "result" with
    | none => simp [applyFetch, applyFetchCode, hres] at h
    | some res =>
      cases hcb : res.get "code_base64" with
      | none => simp [applyFetch, applyFetchCode, hres, hcb] at h
      | some cb =>
        simp only [applyFetch, applyFetchCode, hres, hcb, Except.ok.injEq] at h
        rw [← h]
        exact destOnly_append_one dest b _ hb (by simp [StateRecord.named_account, hb.1])
  | storage =>
    cases hres : resp.get "result" with
    | none => simp [applyFetch, applyFetchStorage, hres] at h
    | some res =>
      cases hvs : res.get "values" with
      | none => simp [applyFetch, applyFetchStorage, hres, hvs] at h
      | some vs =>
        simp only [applyFetch, applyFetchStorage, hres, hvs, Except.ok.injEq] at h
        rw [← h]
        exact destOnly_storage_entries dest b _ hb
  | accessKeys =>
    cases hres : resp.get "result" with
    | none => simp [applyFetch, applyFetchAccessKeys, hres] at h
    | some res =>
      cases hks : res.get "keys" with
      | none => simp [applyFetch, applyFetchAccessKeys, hres, hks] at h
      | some ks =>
        simp only [applyFetch, applyFetchAccessKeys, hres, hks] at h
        exact destOnly_applyAccessKeyList dest _ b b2 h hb

/-- A whole fetch pass preserves the invariant. -/
theorem destOnly_seqFetch (dest account_id : String) (oracle : FetchOracle)
    (cs : List FetchCat) (b b2 : PatchState) (tr : List FetchQuery)
    (h : seqFetch oracle account_id cs b = (.ok b2, tr)) (hb : destOnly dest b) :
    destOnly dest b2 := by
  induction cs generalizing b tr with
  | nil =>
    simp only [seqFetch, Prod.mk.injEq] at h
    cases h.1
    exact hb
  | cons c rest ih =>
    cases hc : oracle c with
    | error e =>
      simp only [seqFetch, hc, Prod.mk.injEq] at h
      exact absurd h.1 (by simp)
    | ok resp =>
      cases hap : applyFetch c b resp with
      | error e =>
        simp only [seqFetch, hc, hap, Prod.mk.injEq] at h
        exact absurd h.1 (by simp)
      | ok b3 =>
        simp only [seqFetch, hc, hap, Prod.mk.injEq] at h
        have hpair : seqFetch oracle account_id rest b3 =
            (.ok b2, (seqFetch oracle account_id rest b3).snd) := by
          rw [← h.1]
        exact ih b3 _ hpair (destOnly_applyFetch dest c b b3 resp hap hb)

/-- Every helper method preserves the invariant. -/
theorem destOnly_applyHelperOp (dest : String) (b b2 : PatchState) (op : HelperOp)
    (h : applyHelperOp b op = .ok b2) (hb : destOnly dest b) : destOnly dest b2 := by
  cases op with
  | accountOp v =>
    simp only [applyHelperOp, Except.ok.injEq] at h
    rw [← h]
    exact destOnly_append_one dest b _ hb (by simp [StateRecord.named_account, hb.1])
  | storageOp k v =>
    simp only [applyHelperOp, Except.ok.injEq] at h
    rw [← h]
    exact destOnly_append_one dest b _ hb (by simp [StateRecord.named_account, hb.1])
  | storageEntriesOp entries =>
    simp only [applyHelperOp, Except.ok.injEq] at h
    rw [← h]
    exact destOnly_storage_entries dest b entries hb
  | codeOp c =>
    simp only [applyHelperOp, Except.ok.injEq] at h
    rw [← h]
    exact destOnly_append_one dest b _ hb (by simp [StateRecord.named_account, hb.1])
  | accessKeyOp pk ak =>
    simp only [applyHelperOp, Except.ok.injEq] at h
    rw [← h]
    exact destOnly_access_key dest b pk ak hb
  | withDefaultAccessKeyOp =>
    simp only [applyHelperOp, Except.ok.injEq] at h
    rw [← h]
    exact destOnly_access_key dest b _ _ hb
  | receivedDataOp data_id d =>
    simp only [applyHelperOp, Except.ok.injEq] at h
    rw [← h]
    exact destOnly_append_one dest b _ hb (by simp [StateRecord.named_account, hb.1])
  | fetchFromAccountOp src fd oracle =>
    simp only [applyHelperOp] at h
    cases hfetch : b.fetch_from_account src fd oracle with
    | mk r tr =>
      rw [hfetch] at h
      cases h
      exact destOnly_seqFetch dest src oracle (enabledFetches fd) b b2 tr hfetch hb

/-- Chains of helper methods preserve the invariant. -/
theorem destOnly_applyHelperOps (dest : String) (ops : List HelperOp) (b b2 : PatchState)
    (h : applyHelperOps b ops = .ok b2) (hb : destOnly dest b) : destOnly dest b2 := by
  induction ops generalizing b with
  | nil => simp only [applyHelperOps, Except.ok.injEq] at h; rw [← h]; exact hb
  | cons op rest ih =>
    cases hop : applyHelperOp b op with
    | error e => simp [applyHelperOps, hop] at h
    | ok b3 =>
      simp only [applyHelperOps, hop] at h
      exact ih b3 h (destOnly_applyHelperOp dest b b3 op hop hb)

/-- C10: every record appended through the helper methods (`account`,
`storage`, `storage_entries`, `code`, `access_key`,
`with_default_access_key`, `received_data`, and the fetch helpers — also
when `fetch_from_account` is pointed at a source account different from
the builder's target) names the builder's destination account; the raw
`state_record` method, by contrast, can insert a record naming another
account. -/
theorem c10_helpers_only_name_destination :
    (∀ dest rpc_addr ops b2, applyHelperOps (PatchState.new dest rpc_addr) ops = .ok b2 →
      ∀ r ∈ b2.state, r.named_account = some dest) ∧
    ((PatchState.new "alice.near" "http://127.0.0.1:3030").state_record
        (.account "bob.near" .null)).state = [.account "bob.near" .null] ∧
    (StateRecord.account "bob.near" Json.null).named_account = some "bob.near" ∧
    "bob.near" ≠ "alice.near" := by
  refine ⟨?_, rfl, rfl, by decide⟩
  intro dest rpc_addr ops b2 h r hr
  have hnew : destOnly dest (PatchState.new dest rpc_addr) := by
    refine ⟨rfl, ?_⟩
    intro x hx
    simp [PatchState.new] at hx
  exact (destOnly_applyHelperOps dest ops _ b2 h hnew).2 r hr

/-- A chain of a storage write followed by a fetch from a foreign source
account, exercising `c10_helpers_only_name_destination`: the fetched
contract record still names the destination. -/
theorem c10_helpers_only_name_destination_witness :
    applyHelperOps (PatchState.new "dest.near" "http://127.0.0.1:3030")
      [.storageOp "a2V5" "dmFs",
       .fetchFromAccountOp "other.near" FetchData.ALL
         (fun cat =>
           match cat with
           | .account => .ok (.obj [("result", .obj [("amount", .str "1")])])
           | .code => .ok (.obj [("result", .obj [("code_base64", .str "")])])
           | .storage => .ok (.obj [("result", .obj [("values", .arr [])])])
           | .accessKeys => .ok (.obj [("result", .obj [("keys", .arr [])])]))] =
      .ok (PatchState.mk "dest.near"
        [.data "dest.near" "a2V5" "dmFs",
         .account "dest.near" (.obj [("amount", .str "1")]),
         .contract "dest.near" ""]
        "http://127.0.0.1:3030" none) ∧
    (StateRecord.contract "dest.near" "").named_account = some "dest.near" := by
  refine ⟨rfl, ?_⟩
  exact c10_helpers_only_name_destination.1 "dest.near" "http://127.0.0.1:3030"
    [.storageOp "a2V5" "dmFs",
     .fetchFromAccountOp "other.near" FetchData.ALL
       (fun cat =>
         match cat with
         | .account => .ok (.obj [("result", .obj [("amount", .str "1")])])
         | .code => .ok (.obj [("result", .obj [("code_base64", .str "")])])
         | .storage => .ok (.obj [("result", .obj [("values", .arr [])])])
         | .accessKeys => .ok (.obj [("result", .obj [("keys", .arr [])])]))]
    (PatchState.mk "dest.near"
      [.data "dest.near" "a2V5" "dmFs",
       .account "dest.near" (.obj [("amount", .str "1")]),
       .contract "dest.near" ""]
      "http://127.0.0.1:3030" none)
    rfl (.contract "dest.near" "") (by simp)

/-! ### C3: `fast_forward` (`src/sandbox/mod.rs`) -/

/-- The environment of one `fast_forward` run: the `status` response used
for the initial height, the `sandbox_fast_forward` response, and the
`status` response of each subsequent poll (all as `send_request` results). -/
structure FastForwardEnv where
  status_resp : Except SandboxRpcError Json
  ff_resp : Except SandboxRpcError Json
  poll_resp : Nat → Except SandboxRpcError Json

/-- `Sandbox::get_block_height` applied to a `send_request` result:
unwrap `result.sync_info.latest_block_height` as an integer. -/
def parseBlockHeight (resp : Except SandboxRpcError Json) : Except SandboxRpcError Nat :=
  match resp with
  | .error e => .error e
  | .ok body =>
    match ((body.get "result").bind (fun r => r.get "sync_info")).bind
        (fun s => (s.get "latest_block_height").bind Json.asNat) with
    | some h => .ok h
    | none => .error .unexpectedResponse

/-- The timeout error text of the polling loop (`format!` with the target
height and the last height observation, `unwrap_or(0)`). -/
def fastForwardTimeoutMsg (target observed : Nat) : String :=
  "fast_forward timeout: expected height " ++ toString target ++
    " but current height is " ++ toString observed

/-- The polling loop of `fast_forward`: return `Ok` as soon as an observed
height reaches the target, keep polling on lower heights and on errors;
the 30-second deadline is modelled as fuel (the number of 100 ms ticks
remaining). -/
def fastForwardPoll (env : FastForwardEnv) (target : Nat) : Nat → Nat →
    Except SandboxRpcError Unit
  | i, 0 =>
    .error (.sandboxRpcError (.str (fastForwardTimeoutMsg target
      ((parseBlockHeight (env.poll_resp i)).toOption.getD 0))))
  | i, fuel + 1 =>
    match parseBlockHeight (env.poll_resp i) with
    | .ok h => if target ≤ h then .ok () else fastForwardPoll env target (i + 1) fuel
    | .error _ => fastForwardPoll env target (i + 1) fuel

/-- `Sandbox::fast_forward`: read the initial height, issue
`sandbox_fast_forward`, then poll until the target height is observed. -/
def fast_forward (env : FastForwardEnv) (blocks : Nat) (fuel : Nat) :
    Except SandboxRpcError Unit :=
  match parseBlockHeight env.status_resp with
  | .error e => .error e
  | .ok initial_height =>
    match env.ff_resp with
    | .error e => .error e
    | .ok _ => fastForwardPoll env (initial_height + blocks) 0 fuel

/-- The polling loop only succeeds on an actually observed height. -/
theorem fastForwardPoll_ok_observes (env : FastForwardEnv) (target i fuel : Nat)
    (h : fastForwardPoll env target i fuel = .ok ()) :
    ∃ j h2, parseBlockHeight (env.poll_resp j) = .ok h2 ∧ target ≤ h2 := by
  induction fuel generalizing i with
  | zero => simp [fastForwardPoll] at h
  | succ fuel ih =>
    cases hp : parseBlockHeight (env.poll_resp i) with
    | error e =>
      simp only [fastForwardPoll, hp] at h
      exact ih (i + 1) h
    | ok h2 =>
      simp only [fastForwardPoll, hp] at h
      by_cases hle : target ≤ h2
      · exact ⟨i, h2, hp, hle⟩
      · rw [if_neg hle] at h
        exact ih (i + 1) h

/-- C3: whenever `fast_forward(blocks)` returns `Ok`, some polled `status`
response reported a height of at least `initial_height + blocks`; the
result of the `sandbox_fast_forward` RPC itself is never what produces the
`Ok` — the bound holds for every possible `ff_resp`. -/
theorem c3_fast_forward_waits_for_height (env : FastForwardEnv) (blocks fuel h0 : Nat)
    (hinit : parseBlockHeight env.status_resp = .ok h0)
    (hok : fast_forward env blocks fuel = .ok ()) :
    ∃ j h2, parseBlockHeight (env.poll_resp j) = .ok h2 ∧ h0 + blocks ≤ h2 := by
  unfold fast_forward at hok
  rw [hinit] at hok
  cases hff : env.ff_resp with
  | error e => rw [hff] at hok; simp at hok
  | ok v =>
    rw [hff] at hok
    exact fastForwardPoll_ok_observes env (h0 + blocks) 0 fuel hok

/-- A run whose `sandbox_fast_forward` RPC "completes" immediately but
whose first poll still reports a low height: `fast_forward` returns `Ok`
only at the second poll, where the height bound is actually observed;
exercises `c3_fast_forward_waits_for_height`. -/
theorem c3_fast_forward_waits_for_height_witness :
    parseBlockHeight (FastForwardEnv.mk
      (.ok (.obj [("result", .obj [("sync_info", .obj [("latest_block_height", .num 100)])])]))
      (.ok (.obj [("result", .str "done")]))
      (fun i => .ok (.obj [("result", .obj [("sync_info", .obj
        [("latest_block_height", .num (if i = 0 then 101 else 106))])])]))).status_resp =
      .ok 100 ∧
    fast_forward (FastForwardEnv.mk
      (.ok (.obj [("result", .obj [("sync_info", .obj [("latest_block_height", .num 100)])])]))
      (.ok (.obj [("result", .str "done")]))
      (fun i => .ok (.obj [("result", .obj [("sync_info", .obj
        [("latest_block_height", .num (if i = 0 then 101 else 106))])])]))) 5 300 = .ok () ∧
    (∃ j h2, parseBlockHeight ((FastForwardEnv.mk
      (.ok (.obj [("result", .obj [("sync_info", .obj [("latest_block_height", .num 100)])])]))
      (.ok (.obj [("result", .str "done")]))
      (fun i => .ok (.obj [("result", .obj [("sync_info", .obj
        [("latest_block_height", .num (if i = 0 then 101 else 106))])])]))).poll_resp j) =
        .ok h2 ∧ 100 + 5 ≤ h2) := by
  exact ⟨rfl, rfl, c3_fast_forward_waits_for_height _ 5 300 100 rfl rfl⟩

/-! ### Startup (`start_sandbox_with_config_and_version`) and the cleanup
registry (`src/runner/cleanup.rs`) -/

/-- `TcpError` from `src/error_kind.rs` (io errors as codes). -/
inductive TcpError where
  | bindError (port : Nat) (e : Nat)
  | localAddrError (e : Nat)
  | lockingError (e : Nat)
deriving DecidableEq

/-- `SandboxError` from `src/error_kind.rs`, restricted to the variants
startup can produce (`SandboxStartupRetriesExhausted` is the variant
`sandbox/mod.rs` returns when the retry budget is exhausted). -/
inductive SandboxError where
  | tcpError (e : TcpError)
  | fileError (e : Nat)
  | runtimeError (e : Nat)
  | timeoutError
  | sandboxStartupRetriesExhausted (n : Nat)
deriving DecidableEq

/-- The `SANDBOX_PIDS` set of `cleanup.rs`, modelled as a duplicate-free
list. `register_pid` (`SANDBOX_PIDS.lock().unwrap().insert(pid)`). -/
def register_pid (registry : List Nat) (pid : Nat) : List Nat :=
  if pid ∈ registry then registry else registry ++ [pid]

/-- `unregister_pid` (`SANDBOX_PIDS.lock().unwrap().remove(&pid)`), run by
`CleanupGuard::drop`. -/
def unregister_pid (registry : List Nat) (pid : Nat) : List Nat :=
  registry.filter (fun q => q != pid)

/-- `CleanupGuard::new`: registers the pid (the one-time `atexit`/signal
handler installation has no effect on the pid set). -/
def cleanup_guard_new (registry : List Nat) (pid : Nat) : List Nat :=
  register_pid registry pid

/-- `kill_all_sandboxes`: SIGKILL every registered pid. -/
def kill_all_sandboxes (registry : List Nat) : List Nat := registry

/-- `rpc_socket` from `src/runner/mod.rs`. -/
def rpc_socket (port : Nat) : String := "127.0.0.1:" ++ toString port

/-- Observable side effects of one startup run. `registeredPid` would be
emitted by a `CleanupGuard::new`/`register_pid` call; `killed` by a kill of
the spawned process; `lockReleased` by dropping a port-lock `File`. -/
inductive StartEvent where
  | spawned (pid : Nat)
  | registeredPid (pid : Nat)
  | unregisteredPid (pid : Nat)
  | killed (pid : Nat)
  | lockReleased (lockfile : Nat)
deriving DecidableEq, BEq

/-- One attempt's environment: the two port acquisitions
(`acquire_or_lock_port`, abstracted as their outcome: port number plus
lock-file id), the `run_neard_with_port_guards` spawn outcome (pid), and
the `wait_until_ready` outcome (`Err(TimeoutError)` on timeout). -/
structure AttemptEnv where
  acquire_rpc : Except SandboxError (Nat × Nat)
  acquire_net : Except SandboxError (Nat × Nat)
  spawn : Except Nat Nat
  ready : Except SandboxError Unit

/-- The `Sandbox` struct: `home_dir` is left out (a fresh temp dir),
`process` is represented by its pid. No cleanup-guard field exists. -/
structure Sandbox where
  rpc_addr : String
  rpc_port_lock : Nat
  net_port_lock : Nat
  pid : Nat
deriving DecidableEq

/-- The result of a startup run: the returned value, the emitted events in
order, the number of loop iterations entered, and the final `SANDBOX_PIDS`
registry. -/
structure StartOutcome where
  result : Except SandboxError Sandbox
  events : List StartEvent
  attempts : Nat
  registry : List Nat

/-- `NEAR_SANDBOX_PORT_TRANSFER_RETRY` parsing:
`var(...).unwrap_or_default().parse().unwrap_or(5)`. -/
def max_num_port_retries (envVar : Option String) : Nat :=
  ((envVar.getD "").toNat?).getD 5

/-- The `for attempt in 0..max_num_port_retries` loop of
`start_sandbox_with_config_and_version`. Fuel counts the remaining
iterations; on a timeout with retry budget left the locks are dropped
(released) and the spawned child is dropped — without any kill — before
continuing; on success the instance keeps the locks and the process. The
`SANDBOX_PIDS` registry is threaded through unchanged: the startup path
contains no `CleanupGuard::new`/`register_pid` call. -/
def startLoop (env : Nat → AttemptEnv) (registry : List Nat) (max_retries : Nat) :
    Nat → Nat → StartOutcome
  | _, 0 => ⟨.error (.sandboxStartupRetriesExhausted max_retries), [], 0, registry⟩
  | attempt, fuel + 1 =>
    match (env attempt).acquire_rpc with
    | .error e => ⟨.error e, [], 1, registry⟩
    | .ok (rpcPort, rpcLock) =>
      match (env attempt).acquire_net with
      | .error e => ⟨.error e, [.lockReleased rpcLock], 1, registry⟩
      | .ok (_netPort, netLock) =>
        match (env attempt).spawn with
        | .error e =>
          ⟨.error (.runtimeError e), [.lockReleased rpcLock, .lockReleased netLock], 1,
           registry⟩
        | .ok pid =>
          match (env attempt).ready with
          | .ok () =>
            ⟨.ok ⟨"http://" ++ rpc_socket rpcPort, rpcLock, netLock, pid⟩, [.spawned pid], 1,
             registry⟩
          | .error .timeoutError =>
            if attempt < max_retries then
              let rest := startLoop env registry max_retries (attempt + 1) fuel
              ⟨rest.result,
               .spawned pid :: .lockReleased rpcLock :: .lockReleased netLock :: rest.events,
               rest.attempts + 1, rest.registry⟩
            else
              ⟨.error .timeoutError,
               [.spawned pid, .lockReleased rpcLock, .lockReleased netLock], 1, registry⟩
          | .error e =>
            ⟨.error e, [.spawned pid, .lockReleased rpcLock, .lockReleased netLock], 1,
             registry⟩

/-- `start_sandbox_with_config_and_version` (after home-dir and config
setup): run the bounded retry loop. -/
def start_sandbox_with_config_and_version (env : Nat → AttemptEnv)
    (retryEnvVar : Option String) (registry : List Nat) : StartOutcome :=
  startLoop env registry (max_num_port_retries retryEnvVar) 0
    (max_num_port_retries retryEnvVar)

/-- `Drop for Sandbox`: `start_kill` the process; nothing is unregistered
(the struct holds no cleanup guard). -/
def Sandbox.drop (s : Sandbox) : List StartEvent := [.killed s.pid]

/-! ### C1 and C2 -/

/-- A startup environment whose first attempt succeeds: ports 3030/3031
acquired with lock files 10/11, the node spawned as pid 4242, readiness
reached. -/
def c1Env : Nat → AttemptEnv := fun _ =>
  ⟨.ok (3030, 10), .ok (3031, 11), .ok 4242, .ok ()⟩

/-- C1 (code evaluated at the failing input): a fully successful startup
returns the instance with pid 4242, yet the `SANDBOX_PIDS` cleanup
registry stays empty — the pid is never registered (no
`CleanupGuard::new`/`register_pid` call occurs on the startup path),
although `register_pid` would have recorded it. -/
theorem c1_pid_never_registered :
    (start_sandbox_with_config_and_version c1Env none []).result =
      .ok ⟨"http://" ++ rpc_socket 3030, 10, 11, 4242⟩ ∧
    (start_sandbox_with_config_and_version c1Env none []).registry = [] ∧
    (start_sandbox_with_config_and_version c1Env none []).events.contains
      (.registeredPid 4242) = false ∧
    register_pid [] 4242 = [4242] :=
  ⟨rfl, rfl, rfl, rfl⟩

/-- A startup environment whose first attempt times out in
`wait_until_ready` (after spawning pid 111) and whose second attempt
succeeds (pid 222). -/
def c2Env : Nat → AttemptEnv
  | 0 => ⟨.ok (3030, 10), .ok (3031, 11), .ok 111, .error .timeoutError⟩
  | _ + 1 => ⟨.ok (4040, 20), .ok (4041, 21), .ok 222, .ok ()⟩

/-- C2 (code evaluated at the failing input): when the readiness wait of
the first attempt times out, the attempt's port locks are released before
the retry, but the spawned process (pid 111) is never killed — the child
handle is dropped without `kill_on_drop` or an explicit kill, so no
`killed 111` event exists anywhere in the run. -/
theorem c2_timeout_releases_locks_but_never_kills :
    (start_sandbox_with_config_and_version c2Env none []).result =
      .ok ⟨"http://" ++ rpc_socket 4040, 20, 21, 222⟩ ∧
    (start_sandbox_with_config_and_version c2Env none []).events =
      [.spawned 111, .lockReleased 10, .lockReleased 11, .spawned 222] ∧
    (start_sandbox_with_config_and_version c2Env none []).events.contains
      (.killed 111) = false :=
  ⟨rfl, rfl, rfl⟩

/-! ### C7 -/

/-- An attempt that reaches the readiness wait and times out: both port
acquisitions succeed, the spawn succeeds, `wait_until_ready` returns
`Err(TimeoutError)`. -/
def attempt_times_out (a : AttemptEnv) : Prop :=
  (∃ x, a.acquire_rpc = .ok x) ∧ (∃ y, a.acquire_net = .ok y) ∧
  (∃ pid, a.spawn = .ok pid) ∧ a.ready = .error .timeoutError

/-- The loop enters at most `fuel` iterations. -/
theorem startLoop_attempts_le (env : Nat → AttemptEnv) (registry : List Nat)
    (max_retries : Nat) (fuel attempt : Nat) :
    (startLoop env registry max_retries attempt fuel).attempts ≤ fuel := by
  induction fuel generalizing attempt with
  | zero => exact Nat.le_refl 0
  | succ fuel ih =>
    rw [startLoop]
    cases (env attempt).acquire_rpc with
    | error e => exact Nat.le_add_left 1 fuel
    | ok x =>
      obtain ⟨rpcPort, rpcLock⟩ := x
      cases (env attempt).acquire_net with
      | error e => exact Nat.le_add_left 1 fuel
      | ok y =>
        obtain ⟨netPort, netLock⟩ := y
        cases (env attempt).spawn with
        | error e => exact Nat.le_add_left 1 fuel
        | ok pid =>
          cases hr : (env attempt).ready with
          | ok u => cases u; exact Nat.le_add_left 1 fuel
          | error e =>
            cases e with
            | timeoutError =>
              by_cases hlt : attempt < max_retries
              · simp only [if_pos hlt]
                exact Nat.succ_le_succ (ih (attempt + 1))
              · simp only [if_neg hlt]
                exact Nat.le_add_left 1 fuel
            | tcpError e => exact Nat.le_add_left 1 fuel
            | fileError e => exact Nat.le_add_left 1 fuel
            | runtimeError e => exact Nat.le_add_left 1 fuel
            | sandboxStartupRetriesExhausted n => exact Nat.le_add_left 1 fuel

/-- When every reachable attempt times out, the loop runs through its fuel
and falls out with `SandboxStartupRetriesExhausted`. -/
theorem startLoop_all_timeout (env : Nat → AttemptEnv) (registry : List Nat)
    (max_retries : Nat) (fuel attempt : Nat) (hle : attempt + fuel ≤ max_retries)
    (hto : ∀ i, attempt ≤ i → i < attempt + fuel → attempt_times_out (env i)) :
    (startLoop env registry max_retries attempt fuel).result =
      .error (.sandboxStartupRetriesExhausted max_retries) := by
  induction fuel generalizing attempt with
  | zero => rfl
  | succ fuel ih =>
    obtain ⟨⟨x, hrpc⟩, ⟨y, hnet⟩, ⟨pid, hspawn⟩, hready⟩ :=
      hto attempt (Nat.le_refl attempt) (by omega)
    obtain ⟨rpcPort, rpcLock⟩ := x
    obtain ⟨netPort, netLock⟩ := y
    have hlt : attempt < max_retries := by omega
    rw [startLoop]
    simp only [hrpc, hnet, hspawn, hready, if_pos hlt]
    exact ih (attempt + 1) (by omega) (fun i h1 h2 => hto i (by omega) (by omega))

/-- C7: the number of launch-and-await-ready attempts of a startup is
bounded by the `NEAR_SANDBOX_PORT_TRANSFER_RETRY` configuration, whose
default is 5; and when every attempt inside the budget times out, the
startup fails with `SandboxStartupRetriesExhausted` rather than
falling back silently. -/
theorem c7_retries_bounded_and_exhausted (env : Nat → AttemptEnv)
    (retryEnvVar : Option String) (registry : List Nat) :
    max_num_port_retries none = 5 ∧
    (start_sandbox_with_config_and_version env retryEnvVar registry).attempts ≤
      max_num_port_retries retryEnvVar ∧
    ((∀ i, i < max_num_port_retries retryEnvVar → attempt_times_out (env i)) →
      (start_sandbox_with_config_and_version env retryEnvVar registry).result =
        .error (.sandboxStartupRetriesExhausted (max_num_port_retries retryEnvVar))) := by
  refine ⟨by trivial, ?_, ?_⟩
  · exact startLoop_attempts_le env registry _ _ 0
  · intro hto
    exact startLoop_all_timeout env registry _ _ 0 (by omega)
      (fun i h1 h2 => hto i (by omega))

/-- A three-attempt budget (`NEAR_SANDBOX_PORT_TRANSFER_RETRY=3`) in which
every attempt times out, exercising `c7_retries_bounded_and_exhausted`:
the run fails with `SandboxStartupRetriesExhausted 3`. -/
theorem c7_retries_bounded_and_exhausted_witness :
    (∀ i, i < max_num_port_retries (some "3") →
      attempt_times_out ((fun _ : Nat =>
        AttemptEnv.mk (.ok (3030, 10)) (.ok (3031, 11)) (.ok 111)
          (.error .timeoutError)) i)) ∧
    (start_sandbox_with_config_and_version
      (fun _ => AttemptEnv.mk (.ok (3030, 10)) (.ok (3031, 11)) (.ok 111)
        (.error .timeoutError)) (some "3") []).result =
      .error (.sandboxStartupRetriesExhausted (max_num_port_retries (some "3"))) := by
  have hto : ∀ i, i < max_num_port_retries (some "3") →
      attempt_times_out ((fun _ : Nat =>
        AttemptEnv.mk (.ok (3030, 10)) (.ok (3031, 11)) (.ok 111)
          (.error .timeoutError)) i) :=
    fun i _ => ⟨⟨(3030, 10), rfl⟩, ⟨(3031, 11), rfl⟩, ⟨111, rfl⟩, rfl⟩
  exact ⟨hto,
    (c7_retries_bounded_and_exhausted
      (fun _ => AttemptEnv.mk (.ok (3030, 10)) (.ok (3031, 11)) (.ok 111)
        (.error .timeoutError)) (some "3") []).2.2 hto⟩

/-! ### C8: `try_acquire_specific_port_guard` -/

/-- The OS environment of a port acquisition: `TcpListener::bind` followed
by `local_addr` (as one lookup returning the bound port, or an io-error
code), `File::create` for the lock path of the bound port, and
`try_lock_exclusive` on that file. -/
structure PortEnv where
  bind : Nat → Except Nat Nat
  create_lock_file : Nat → Except Nat Nat
  try_lock_exclusive : Nat → Except Nat Unit

/-- `try_acquire_specific_port_guard`: bind the requested port, re-read
the bound port from `local_addr`, create and exclusively lock the lock
file keyed by the bound port. Returns the (bound port, lock file) pair or
the first error, plus the list of bind attempts (always exactly one — no
retry across ports). -/
def try_acquire_specific_port_guard (env : PortEnv) (port : Nat) :
    Except SandboxError (Nat × Nat) × List Nat :=
  match env.bind port with
  | .error e => (.error (.tcpError (.bindError port e)), [port])
  | .ok bound =>
    match env.create_lock_file bound with
    | .error e => (.error (.tcpError (.lockingError e)), [port])
    | .ok lockfile =>
      match env.try_lock_exclusive bound with
      | .error e => (.error (.tcpError (.lockingError e)), [port])
      | .ok _ => (.ok (bound, lockfile), [port])

/-- OS faithfulness of `TcpListener::bind`: binding a nonzero port, when
it succeeds, binds exactly that port. (Port 0 instead asks the OS for an
arbitrary unused port — the source's own comment in
`pick_unused_port_guard` documents this.) -/
def bind_wf (env : PortEnv) : Prop :=
  ∀ p q, p ≠ 0 → env.bind p = .ok q → q = p

/-- Errors of the bind/lock kind (`TcpError::BindError` /
`TcpError::LockingError`). -/
def is_bind_or_lock_error : SandboxError → Bool
  | .tcpError (.bindError _ _) => true
  | .tcpError (.lockingError _) => true
  | _ => false

/-- C8 (amended to nonzero requested ports): requesting a specific nonzero
port performs exactly one bind attempt, at that port; it either returns a
listener bound to exactly the requested port with its lock file, or fails
immediately with a bind or lock error — never retrying another port and
never succeeding on a different port. -/
theorem c8_specific_port_exact_or_fail (env : PortEnv) (port : Nat)
    (hwf : bind_wf env) (hnz : port ≠ 0) :
    (try_acquire_specific_port_guard env port).snd = [port] ∧
    (∀ bound lockfile,
      (try_acquire_specific_port_guard env port).fst = .ok (bound, lockfile) →
      bound = port) ∧
    (∀ e, (try_acquire_specific_port_guard env port).fst = .error e →
      is_bind_or_lock_error e = true) := by
  cases hb : env.bind port with
  | error e =>
    simp only [try_acquire_specific_port_guard, hb]
    refine ⟨by trivial, ?_, ?_⟩
    · intro bound lockfile h
      simp at h
    · intro e2 h
      simp only [Except.error.injEq] at h
      rw [← h]
      rfl
  | ok bound =>
    cases hcr : env.create_lock_file bound with
    | error e =>
      simp only [try_acquire_specific_port_guard, hb, hcr]
      refine ⟨by trivial, ?_, ?_⟩
      · intro b2 l2 h
        simp at h
      · intro e2 h
        simp only [Except.error.injEq] at h
        rw [← h]
        rfl
    | ok lockfile =>
      cases hlk : env.try_lock_exclusive bound with
      | error e =>
        simp only [try_acquire_specific_port_guard, hb, hcr, hlk]
        refine ⟨by trivial, ?_, ?_⟩
        · intro b2 l2 h
          simp at h
        · intro e2 h
          simp only [Except.error.injEq] at h
          rw [← h]
          rfl
      | ok u =>
        cases u
        simp only [try_acquire_specific_port_guard, hb, hcr, hlk]
        refine ⟨by trivial, ?_, ?_⟩
        · intro b2 l2 h
          simp only [Except.ok.injEq, Prod.mk.injEq] at h
          rw [← h.1]
          exact hwf port bound hnz hb
        · intro e2 h
          simp at h

/-- An OS state in which binding port 0 hands out the unused port 49152:
faithful to `bind` semantics for nonzero ports. -/
def c8ZeroEnv : PortEnv :=
  ⟨fun p => .ok (if p = 0 then 49152 else p), fun _ => .ok 1, fun _ => .ok ()⟩

/-- C8 counterexample: requesting the specific port 0 does not fail and
does not return a listener on port 0 — the acquisition silently succeeds
on the OS-assigned port 49152, refuting the claim as stated for the
requested port 0. -/
theorem c8_zero_port_counterexample :
    bind_wf c8ZeroEnv ∧
    (try_acquire_specific_port_guard c8ZeroEnv 0).fst = .ok (49152, 1) ∧
    (49152 : Nat) ≠ 0 := by
  refine ⟨?_, rfl, by decide⟩
  intro p q hp h
  simp only [c8ZeroEnv, Except.ok.injEq] at h
  rw [← h, if_neg hp]

/-- A live holder of port 3030 (every bind attempt fails with
`EADDRINUSE`, io error 98): a second `acquire(3030)` fails immediately
with a bind error, exercising `c8_specific_port_exact_or_fail`. -/
theorem c8_specific_port_exact_or_fail_witness :
    bind_wf ⟨fun _ => .error 98, fun _ => .ok 1, fun _ => .ok ()⟩ ∧
    (3030 : Nat) ≠ 0 ∧
    (try_acquire_specific_port_guard
      ⟨fun _ => .error 98, fun _ => .ok 1, fun _ => .ok ()⟩ 3030).snd = [3030] ∧
    is_bind_or_lock_error (.tcpError (.bindError 3030 98)) = true := by
  have hwf : bind_wf ⟨fun _ => .error 98, fun _ => .ok 1, fun _ => .ok ()⟩ := by
    intro p q hp h
    exact absurd h (by simp)
  refine ⟨hwf, by decide, ?_, ?_⟩
  · exact (c8_specific_port_exact_or_fail
      ⟨fun _ => .error 98, fun _ => .ok 1, fun _ => .ok ()⟩ 3030 hwf (by decide)).1
  · exact (c8_specific_port_exact_or_fail
      ⟨fun _ => .error 98, fun _ => .ok 1, fun _ => .ok ()⟩ 3030 hwf (by decide)).2.2
      (.tcpError (.bindError 3030 98)) rfl
